import Mathlib

/-!
Verification development for the raiden monitoring service core
(`monitoring_service/server.py`): a shallow embedding of the
`MonitoringService` channel-lifecycle state machine and its task dispatch,
with theorems about event handling, startup validation and shutdown.

Addresses and channel identifiers are modelled as natural numbers; the
hash/signature payloads of balance proofs are opaque numbers.  Python's
`set` of open channels becomes a `Finset`, the task list a `List`, and the
persistent store a list of key/value entries.  Each event/message handler
is a pure function from service state (plus the event payload) to the new
service state together with the log lines it emits; spawning a task is
appending it to the tracked task list, exactly as `start_task` does.
-/

namespace Monitoring

abbrev Address := Nat

abbrev ChannelId := Nat

/-- Balance proof as constructed in `on_channel_close` from the closing
transaction's decoded input data (`raiden_libs.messages.BalanceProof`). -/
structure BalanceProof where
  channel_identifier : ChannelId
  token_network_address : Address
  balance_hash : Nat
  nonce : Nat
  additional_hash : Nat
  chain_id : Nat
  signature : Nat
deriving DecidableEq, Repr

/-- Monitor request as seen by the server core: only its balance proof is
inspected (`monitor_request.balance_proof.channel_identifier`); reward terms
and signatures are carried opaquely by the tasks. -/
structure MonitorRequest where
  balance_proof : BalanceProof
deriving DecidableEq, Repr

/-- Modelled from the spec: the PersistentStore contract of section 6 (the
`monitoring_service.state_db` module is not part of the sources).  It keeps
the service identity written by `setup_db` and the monitor requests keyed by
the pair (channel id, non-closing participant). -/
structure StateDB where
  initialized : Bool
  chain_id : Nat
  server_address : Address
  monitoring_contract_address : Address
  monitor_requests : List ((ChannelId × Address) × MonitorRequest)
deriving DecidableEq, Repr

/-- Modelled from the spec: `isInitialized() -> bool`. -/
def StateDB.is_initialized (db : StateDB) : Bool :=
  db.initialized

/-- Modelled from the spec: `setup(chainId, monitorContractAddress,
serviceAddress)` records the service identity and marks the store
initialized. -/
def StateDB.setup_db (db : StateDB) (chain_id : Nat)
    (monitor_contract_address : Address) (server_address : Address) : StateDB :=
  { db with
    initialized := true
    chain_id := chain_id
    monitoring_contract_address := monitor_contract_address
    server_address := server_address }

/-- Modelled from the spec: `getMonitorRequests(channelId)` returns the
mapping of `(channelId, participant) -> MonitorRequest` restricted to the
given channel. -/
def StateDB.get_monitor_requests (db : StateDB) (channel_id : ChannelId) :
    List ((ChannelId × Address) × MonitorRequest) :=
  db.monitor_requests.filter (fun e => decide (e.1.1 = channel_id))

/-- Modelled from the spec: `deleteMonitorRequests(channelId)` removes every
stored request for the channel. -/
def StateDB.delete_monitor_request (db : StateDB) (channel_id : ChannelId) : StateDB :=
  { db with
    monitor_requests := db.monitor_requests.filter (fun e => decide (e.1.1 ≠ channel_id)) }

/-- Modelled from the spec: address derivation from the signing key
(`raiden_libs.utils.private_key_to_address`), abstracted to a deterministic
map on opaque key material. -/
def private_key_to_address (private_key : Nat) : Address :=
  private_key

/-- Case-insensitive address comparison (`eth_utils.is_same_address`),
which on abstract addresses is plain equality. -/
def is_same_address (a b : Address) : Bool :=
  decide (a = b)

/-- Modelled from the spec: the read-only registration check of
`monitoring_service.utils.is_service_registered` (a contract call), modelled
against the contract's current set of registered service addresses. -/
def is_service_registered (registered_services : List Address) (address : Address) : Bool :=
  registered_services.contains address

/-- The TaskUnit family (`monitoring_service.tasks`): constructor arguments
follow the call sites in `server.py`; the `web3`/`state_db` runtime handles
passed to `StoreMonitorRequest` are not data and are omitted. -/
inductive TaskUnit where
  | onChannelClose (monitor_contract : Address) (monitor_request : MonitorRequest)
      (private_key : Nat)
  | onChannelSettle (monitor_request : MonitorRequest) (monitor_contract : Address)
      (private_key : Nat)
  | storeMonitorRequest (monitor_request : MonitorRequest)
deriving DecidableEq, Repr

inductive LogLevel where
  | debug
  | info
  | warn
deriving DecidableEq, Repr

/-- Event payloads: `event['args']['channel_identifier']` for `ChannelOpened`. -/
structure OpenEventArgs where
  channel_identifier : ChannelId
deriving DecidableEq, Repr

structure OpenEvent where
  args : OpenEventArgs
  address : Address
deriving DecidableEq, Repr

/-- Event payloads of `ChannelClosed`: channel identifier and closing
participant. -/
structure CloseEventArgs where
  channel_identifier : ChannelId
  closing_participant : Address
deriving DecidableEq, Repr

structure CloseEvent where
  args : CloseEventArgs
  address : Address
deriving DecidableEq, Repr

structure SettleEventArgs where
  channel_identifier : ChannelId
deriving DecidableEq, Repr

structure SettleEvent where
  args : SettleEventArgs
  address : Address
deriving DecidableEq, Repr

/-- Decoded input data of the closing transaction (`tx[1]` in
`on_channel_close`): the five fields read as `tx_data[0] .. tx_data[4]`. -/
structure TxData where
  channel_identifier : ChannelId
  balance_hash : Nat
  nonce : Nat
  additional_hash : Nat
  signature : Nat
deriving DecidableEq, Repr

structure Transaction where
  data : TxData
deriving DecidableEq, Repr

/-- Log lines emitted by the handlers, by payload; `Log.level` recovers the
severity each line is emitted at. -/
inductive Log where
  | info_channel_open (event : OpenEvent)
  | info_channel_close (event : CloseEvent)
  | debug_discarding_mr (channel_id : ChannelId)
  | warn_unknown_message
deriving DecidableEq, Repr

def Log.level : Log → LogLevel
  | .info_channel_open _ => .info
  | .info_channel_close _ => .info
  | .debug_discarding_mr _ => .debug
  | .warn_unknown_message => .warn

/-- The mutable state of a `MonitoringService` instance: the identity fields
set by `__init__`, the persistent store handle, the open-channel set, the
tracked task list, the stop flag, and whether the blockchain monitor is
running. -/
structure MonitoringService where
  private_key : Nat
  address : Address
  monitor_contract_address : Address
  chain_id : Nat
  state_db : StateDB
  open_channels : Finset ChannelId
  task_list : List TaskUnit
  stop_event : Bool
  blockchain_running : Bool
deriving DecidableEq

/-- Startup-validation failures, one inspectable constructor per category
(`monitoring_service.exceptions`, not under the sources; modelled from the
spec's error taxonomy). -/
inductive StateDBInvalidReason where
  | chainId
  | serverAddress
  | monitoringContractAddress
deriving DecidableEq, Repr

inductive InitError where
  | stateDBInvalid (reason : StateDBInvalidReason)
  | serviceNotRegistered
deriving DecidableEq, Repr

/-- Construction (`MonitoringService.__init__`): derive the service address,
initialize an uninitialized store from the current identity, check the three
persisted identity fields (raising `StateDBInvalid`), then check contract
registration (raising `ServiceNotRegistered`). -/
def MonitoringService.init (cfg_private_key : Nat) (cfg_chain_id : Nat)
    (monitor_contract_address : Address) (registered_services : List Address)
    (state_db : StateDB) : Except InitError MonitoringService :=
  let address := private_key_to_address cfg_private_key
  let chain_id := cfg_chain_id
  let db :=
    if state_db.is_initialized = false then
      state_db.setup_db chain_id monitor_contract_address address
    else state_db
  if db.chain_id ≠ chain_id then
    Except.error (InitError.stateDBInvalid StateDBInvalidReason.chainId)
  else if is_same_address db.server_address address = false then
    Except.error (InitError.stateDBInvalid StateDBInvalidReason.serverAddress)
  else if is_same_address db.monitoring_contract_address monitor_contract_address = false then
    Except.error (InitError.stateDBInvalid StateDBInvalidReason.monitoringContractAddress)
  else if is_service_registered registered_services address = false then
    Except.error InitError.serviceNotRegistered
  else
    Except.ok
      { private_key := cfg_private_key
        address := address
        monitor_contract_address := monitor_contract_address
        chain_id := chain_id
        state_db := db
        open_channels := ∅
        task_list := []
        stop_event := false
        blockchain_running := false }

/-- `start_task`: start the task and append its reference to the tracked
list. -/
def MonitoringService.start_task (s : MonitoringService) (task : TaskUnit) :
    MonitoringService :=
  { s with task_list := s.task_list ++ [task] }

/-- `stop()`: stop the blockchain monitor and set the stop flag. -/
def MonitoringService.stop (s : MonitoringService) : MonitoringService :=
  { s with blockchain_running := false, stop_event := true }

/-- The guard of the scheduling loop in `_run`:
`while self.stop_event.is_set() is False`. -/
def MonitoringService.loop_continues (s : MonitoringService) : Bool :=
  !s.stop_event

/-- `on_channel_open`: log, then add the channel id to the open set. -/
def MonitoringService.on_channel_open (s : MonitoringService) (event : OpenEvent) :
    MonitoringService × List Log :=
  let channel_id := event.args.channel_identifier
  ({ s with open_channels := insert channel_id s.open_channels },
   [Log.info_channel_open event])

/-- `on_channel_close`: reconstruct the closing balance proof from the
transaction data, fetch the stored monitor requests for the channel, spawn a
dispute task for every request whose non-closing signer is not the closing
participant, then discard the channel from the open set. -/
def MonitoringService.on_channel_close (s : MonitoringService) (event : CloseEvent)
    (tx : Transaction) : MonitoringService × List Log :=
  let closing_participant := event.args.closing_participant
  let channel_id := event.args.channel_identifier
  let tx_data := tx.data
  let _tx_balance_proof : BalanceProof :=
    { channel_identifier := tx_data.channel_identifier
      token_network_address := event.address
      balance_hash := tx_data.balance_hash
      nonce := tx_data.nonce
      additional_hash := tx_data.additional_hash
      chain_id := s.chain_id
      signature := tx_data.signature }
  let pkey_to_mr := s.state_db.get_monitor_requests channel_id
  let s1 := pkey_to_mr.foldl
    (fun st e =>
      if e.1.2 = closing_participant then
        st
      else
        st.start_task
          (TaskUnit.onChannelClose s.monitor_contract_address e.2 s.private_key))
    s
  ({ s1 with open_channels := s1.open_channels.erase channel_id },
   [Log.info_channel_close event])

/-- `on_channel_settled`: spawn a reward-claim task for every stored monitor
request of the channel, then delete the stored requests for the channel. -/
def MonitoringService.on_channel_settled (s : MonitoringService) (event : SettleEvent) :
    MonitoringService × List Log :=
  let channel_id := event.args.channel_identifier
  let s1 := (s.state_db.get_monitor_requests channel_id).foldl
    (fun st e =>
      st.start_task
        (TaskUnit.onChannelSettle e.2 s.monitor_contract_address s.private_key))
    s
  ({ s1 with
      state_db := s1.state_db.delete_monitor_request event.args.channel_identifier },
   [])

/-- `on_monitor_request`: silently drop (with a debug log line) a request
for a channel that is not currently open; otherwise spawn a storage task. -/
def MonitoringService.on_monitor_request (s : MonitoringService)
    (monitor_request : MonitorRequest) : MonitoringService × List Log :=
  let channel_id := monitor_request.balance_proof.channel_identifier
  if channel_id ∉ s.open_channels then
    (s, [Log.debug_discarding_mr channel_id])
  else
    (s.start_task (TaskUnit.storeMonitorRequest monitor_request), [])

/-- Inbound messages over the transport: only `MonitorRequest` is acted on;
anything else is logged and dropped (`on_message_event`). -/
inductive Message where
  | monitorRequest (monitor_request : MonitorRequest)
  | unknown
deriving DecidableEq, Repr

def MonitoringService.on_message_event (s : MonitoringService) (message : Message) :
    MonitoringService × List Log :=
  match message with
  | .monitorRequest mr => s.on_monitor_request mr
  | .unknown => (s, [Log.warn_unknown_message])

/-- The dispute tasks `on_channel_close` spawns: one `OnChannelClose` per
stored request for the channel whose non-closing signer differs from the
closing participant, in store order. -/
def close_tasks (s : MonitoringService) (event : CloseEvent) : List TaskUnit :=
  ((s.state_db.get_monitor_requests event.args.channel_identifier).filter
      (fun e => decide (e.1.2 ≠ event.args.closing_participant))).map
    (fun e => TaskUnit.onChannelClose s.monitor_contract_address e.2 s.private_key)

/-- The reward-claim tasks `on_channel_settled` spawns: one
`OnChannelSettle` per stored request for the channel, in store order. -/
def settle_tasks (s : MonitoringService) (event : SettleEvent) : List TaskUnit :=
  (s.state_db.get_monitor_requests event.args.channel_identifier).map
    (fun e => TaskUnit.onChannelSettle e.2 s.monitor_contract_address s.private_key)

/-- A confirmed channel-lifecycle event as delivered by the blockchain
monitor to the registered listeners. -/
inductive ConfirmedEvent where
  | opened (event : OpenEvent)
  | closed (event : CloseEvent) (tx : Transaction)
  | settled (event : SettleEvent)
deriving DecidableEq, Repr

/-- Dispatch of one confirmed event to the listener `__init__` registered
for its kind (the state component of the handler result). -/
def process_confirmed_event (s : MonitoringService) : ConfirmedEvent → MonitoringService
  | .opened event => (s.on_channel_open event).1
  | .closed event tx => (s.on_channel_close event tx).1
  | .settled event => (s.on_channel_settled event).1

def process_confirmed_events (s : MonitoringService) (events : List ConfirmedEvent) :
    MonitoringService :=
  events.foldl process_confirmed_event s

/-- Effect of one confirmed event on the open-channel set alone. -/
def open_step : ConfirmedEvent → Finset ChannelId → Finset ChannelId
  | .opened event, o => insert event.args.channel_identifier o
  | .closed event _, o => o.erase event.args.channel_identifier
  | .settled _, o => o

/-- Insert duplicate deliveries: each event of the sequence is re-delivered
`n` extra times right where it occurs (`ns` gives the extra copies, padded
with zero). -/
def expand_duplicates : List ConfirmedEvent → List Nat → List ConfirmedEvent
  | [], _ => []
  | e :: es, [] => e :: expand_duplicates es []
  | e :: es, n :: ns => List.replicate (n + 1) e ++ expand_duplicates es ns

/-- Deliver the same confirmed close event `n` times in a row. -/
def iterate_on_channel_close (event : CloseEvent) (tx : Transaction) :
    Nat → MonitoringService → MonitoringService
  | 0, s => s
  | n + 1, s => iterate_on_channel_close event tx n (s.on_channel_close event tx).1

/-- Fold of the per-event open-set effect over an event sequence. -/
def open_fold (o : Finset ChannelId) (events : List ConfirmedEvent) : Finset ChannelId :=
  events.foldl (fun o e => open_step e o) o

/-! Concrete sample data used by witnesses and counterexamples. -/

def sample_balance_proof (cid : ChannelId) (nonce : Nat) : BalanceProof :=
  { channel_identifier := cid
    token_network_address := 30
    balance_hash := 0
    nonce := nonce
    additional_hash := 0
    chain_id := 1
    signature := 0 }

def sample_tx : Transaction :=
  { data :=
    { channel_identifier := 5
      balance_hash := 0
      nonce := 7
      additional_hash := 0
      signature := 0 } }

def sample_db (entries : List ((ChannelId × Address) × MonitorRequest)) : StateDB :=
  { initialized := true
    chain_id := 1
    server_address := 9
    monitoring_contract_address := 20
    monitor_requests := entries }

def sample_service (entries : List ((ChannelId × Address) × MonitorRequest))
    (opens : Finset ChannelId) : MonitoringService :=
  { private_key := 9
    address := 9
    monitor_contract_address := 20
    chain_id := 1
    state_db := sample_db entries
    open_channels := opens
    task_list := []
    stop_event := false
    blockchain_running := true }

/-- C1 sample: channel 5 with one request protected for participant 2 and one
for participant 3; participant 3 closes. -/
def c1_mr_eligible : MonitorRequest := { balance_proof := sample_balance_proof 5 7 }

def c1_mr_closing : MonitorRequest := { balance_proof := sample_balance_proof 5 8 }

def c1_state : MonitoringService :=
  sample_service [((5, 2), c1_mr_eligible), ((5, 3), c1_mr_closing)] {5}

def c1_close_event : CloseEvent :=
  { args := { channel_identifier := 5, closing_participant := 3 }, address := 30 }

/-- C2 sample: channel 5 is not in the open set, yet a request for it is
stored. -/
def c2_mr : MonitorRequest := { balance_proof := sample_balance_proof 5 7 }

def c2_state : MonitoringService := sample_service [((5, 2), c2_mr)] ∅

def c2_close_event : CloseEvent :=
  { args := { channel_identifier := 5, closing_participant := 3 }, address := 30 }

def c2_settle_event : SettleEvent :=
  { args := { channel_identifier := 5 }, address := 30 }

/-- C2 witness sample: channel 5 not open and nothing stored for it. -/
def c2w_state : MonitoringService := sample_service [] ∅

/-- C5 sample: channel 5 open, the only stored request is protected for the
closing participant 3. -/
def c5_mr : MonitorRequest := { balance_proof := sample_balance_proof 5 7 }

def c5_state : MonitoringService := sample_service [((5, 3), c5_mr)] {5}

def c5_close_event : CloseEvent :=
  { args := { channel_identifier := 5, closing_participant := 3 }, address := 30 }

/-- C6 samples: a request for channel 4, once with the channel absent from
the open set and once with it present. -/
def c6_mr : MonitorRequest := { balance_proof := sample_balance_proof 4 7 }

def c6_state_closed : MonitoringService := sample_service [] ∅

def c6_state_open : MonitoringService := sample_service [] {4}

/-- C7 samples: the current configuration derives service address 11,
chain id 1 and contract address 21. -/
def c7_db_chain : StateDB :=
  { initialized := true
    chain_id := 2
    server_address := 11
    monitoring_contract_address := 21
    monitor_requests := [] }

def c7_db_server : StateDB := { c7_db_chain with chain_id := 1, server_address := 12 }

def c7_db_contract : StateDB :=
  { c7_db_chain with chain_id := 1, monitoring_contract_address := 22 }

def c7_db_good : StateDB := { c7_db_chain with chain_id := 1 }

def c7_db_uninit : StateDB :=
  { initialized := false
    chain_id := 0
    server_address := 0
    monitoring_contract_address := 0
    monitor_requests := [] }

/-- C9 sample: channel 1 is open, a settle event for channel 1 arrives, then
a request for channel 1. -/
def c9_mr : MonitorRequest := { balance_proof := sample_balance_proof 1 7 }

def c9_state : MonitoringService := sample_service [] {1}

def c9_settle_event : SettleEvent :=
  { args := { channel_identifier := 1 }, address := 30 }

/-! Helper lemmas characterizing the handlers. -/

theorem foldl_close (s0 : MonitoringService) (cp : Address) :
    ∀ (l : List ((ChannelId × Address) × MonitorRequest)) (s : MonitoringService),
      (l.foldl
        (fun st e =>
          if e.1.2 = cp then st
          else st.start_task
            (TaskUnit.onChannelClose s0.monitor_contract_address e.2 s0.private_key)) s)
      = { s with task_list := s.task_list ++ (l.filter (fun e => decide (e.1.2 ≠ cp))).map (fun e => TaskUnit.onChannelClose s0.monitor_contract_address e.2 s0.private_key) } := by
  intro l
  induction l with
  | nil => intro s; simp
  | cons e l ih =>
    intro s
    simp only [List.foldl_cons]
    by_cases h : e.1.2 = cp
    · rw [if_pos h, ih, List.filter_cons]
      simp [h]
    · rw [if_neg h, ih, List.filter_cons]
      simp [h, MonitoringService.start_task, List.append_assoc]

theorem on_channel_close_spec (s : MonitoringService) (event : CloseEvent)
    (tx : Transaction) :
    s.on_channel_close event tx =
      ({ s with
          task_list := s.task_list ++ close_tasks s event
          open_channels := s.open_channels.erase event.args.channel_identifier },
       [Log.info_channel_close event]) := by
  simp only [MonitoringService.on_channel_close]
  rw [foldl_close s event.args.closing_participant]
  rfl

theorem foldl_settle (s0 : MonitoringService) :
    ∀ (l : List ((ChannelId × Address) × MonitorRequest)) (s : MonitoringService),
      (l.foldl
        (fun st e =>
          st.start_task
            (TaskUnit.onChannelSettle e.2 s0.monitor_contract_address s0.private_key)) s)
      = { s with task_list := s.task_list ++ l.map (fun e => TaskUnit.onChannelSettle e.2 s0.monitor_contract_address s0.private_key) } := by
  intro l
  induction l with
  | nil => intro s; simp
  | cons e l ih =>
    intro s
    rw [List.foldl_cons, ih]
    simp [MonitoringService.start_task, List.append_assoc]

theorem on_channel_settled_spec (s : MonitoringService) (event : SettleEvent) :
    s.on_channel_settled event =
      ({ s with
          task_list := s.task_list ++ settle_tasks s event
          state_db := s.state_db.delete_monitor_request event.args.channel_identifier },
       []) := by
  simp only [MonitoringService.on_channel_settled]
  rw [foldl_settle s]
  rfl

theorem get_monitor_requests_delete (db : StateDB) (cid : ChannelId) :
    (db.delete_monitor_request cid).get_monitor_requests cid = [] := by
  refine List.filter_eq_nil_iff.mpr ?_
  intro e he
  have he2 := List.of_mem_filter he
  simp at he2
  simpa using he2

theorem delete_monitor_request_of_none {db : StateDB} {cid : ChannelId}
    (h : db.get_monitor_requests cid = []) : db.delete_monitor_request cid = db := by
  have h2 : db.monitor_requests.filter (fun e => decide (e.1.1 = cid)) = [] := h
  have h3 := List.filter_eq_nil_iff.mp h2
  have hf : db.monitor_requests.filter (fun e => decide (e.1.1 ≠ cid))
      = db.monitor_requests := by
    refine List.filter_eq_self.mpr ?_
    intro e he
    have := h3 e he
    simp at this ⊢
    exact this
  unfold StateDB.delete_monitor_request
  rw [hf]

theorem process_confirmed_event_open_channels (s : MonitoringService)
    (e : ConfirmedEvent) :
    (process_confirmed_event s e).open_channels = open_step e s.open_channels := by
  cases e with
  | opened event => rfl
  | closed event tx =>
    simp only [process_confirmed_event]
    rw [on_channel_close_spec]
    rfl
  | settled event =>
    simp only [process_confirmed_event]
    rw [on_channel_settled_spec]
    rfl

theorem process_confirmed_events_open_channels :
    ∀ (events : List ConfirmedEvent) (s : MonitoringService),
      (process_confirmed_events s events).open_channels
        = open_fold s.open_channels events := by
  intro events
  induction events with
  | nil => intro s; rfl
  | cons e es ih =>
    intro s
    show (process_confirmed_events (process_confirmed_event s e) es).open_channels = _
    rw [ih, process_confirmed_event_open_channels]
    rfl

theorem open_step_idem (e : ConfirmedEvent) (o : Finset ChannelId) :
    open_step e (open_step e o) = open_step e o := by
  cases e <;> simp [open_step, Finset.insert_idem, Finset.erase_idem]

theorem open_fold_replicate (e : ConfirmedEvent) :
    ∀ (n : Nat) (o : Finset ChannelId),
      open_fold o (List.replicate (n + 1) e) = open_step e o := by
  intro n
  induction n with
  | zero => intro o; rfl
  | succ n ih =>
    intro o
    show open_fold (open_step e o) (List.replicate (n + 1) e) = _
    rw [ih, open_step_idem]

theorem open_fold_expand :
    ∀ (events : List ConfirmedEvent) (ns : List Nat) (o : Finset ChannelId),
      open_fold o (expand_duplicates events ns) = open_fold o events := by
  intro events
  induction events with
  | nil => intro ns o; cases ns <;> rfl
  | cons e es ih =>
    intro ns o
    cases ns with
    | nil => exact ih [] _
    | cons n ns =>
      show open_fold o (List.replicate (n + 1) e ++ expand_duplicates es ns) = _
      rw [open_fold, List.foldl_append]
      have h1 : List.foldl (fun o e => open_step e o) o (List.replicate (n + 1) e)
          = open_step e o := open_fold_replicate e n o
      rw [h1]
      exact ih ns _

/-! Theorems for the individual claims. -/

/-- C1: a confirmed close event never spawns an `OnChannelClose` dispute task
for a stored request whose non-closing signer equals the closing participant:
the tasks appended to the task list are exactly those for the stored requests
whose signer differs from the closing participant, and every one of them
originates from such a request. -/
theorem claim_C1_close_excludes_closing_participant (s : MonitoringService)
    (event : CloseEvent) (tx : Transaction) :
    (s.on_channel_close event tx).1.task_list = s.task_list ++ close_tasks s event
    ∧ ∀ task ∈ close_tasks s event,
        ∃ e, e ∈ s.state_db.get_monitor_requests event.args.channel_identifier
          ∧ e.1.2 ≠ event.args.closing_participant
          ∧ task = TaskUnit.onChannelClose s.monitor_contract_address e.2 s.private_key := by
  constructor
  · rw [on_channel_close_spec]
  · intro task htask
    unfold close_tasks at htask
    obtain ⟨e, he, rfl⟩ := List.mem_map.mp htask
    have he2 := List.of_mem_filter he
    have he3 := List.mem_of_mem_filter he
    refine ⟨e, he3, ?_, rfl⟩
    simpa using he2

theorem claim_C1_witness :
    ∃ e, e ∈ c1_state.state_db.get_monitor_requests c1_close_event.args.channel_identifier
      ∧ e.1.2 ≠ c1_close_event.args.closing_participant
      ∧ TaskUnit.onChannelClose c1_state.monitor_contract_address c1_mr_eligible c1_state.private_key
          = TaskUnit.onChannelClose c1_state.monitor_contract_address e.2 c1_state.private_key :=
  (claim_C1_close_excludes_closing_participant c1_state c1_close_event sample_tx).2 _ (by decide)

/-- C2 counterexample: channel 5 is not in the open set of `c2_state`, yet a
close event for it spawns a dispute task (the task list changes) and a settle
event for it deletes the stored request (the store changes), so neither is a
no-op on the service state. -/
theorem claim_C2_counterexample :
    (5 : ChannelId) ∉ c2_state.open_channels
    ∧ (c2_state.on_channel_close c2_close_event sample_tx).1.task_list ≠ c2_state.task_list
    ∧ (c2_state.on_channel_settled c2_settle_event).1.state_db ≠ c2_state.state_db := by
  decide

/-- C2 amended: processing a close or settle event for a channel that is not
in the open set never raises (the handlers are total), but the handlers do
not consult the open set; the events leave the service state unchanged only
when the store holds no monitor request for that channel. -/
theorem claim_C2_amended_noop_when_no_requests (s : MonitoringService)
    (close_event : CloseEvent) (tx : Transaction) (settle_event : SettleEvent)
    (h1 : close_event.args.channel_identifier ∉ s.open_channels)
    (h2 : s.state_db.get_monitor_requests close_event.args.channel_identifier = [])
    (h3 : s.state_db.get_monitor_requests settle_event.args.channel_identifier = []) :
    (s.on_channel_close close_event tx).1 = s
    ∧ (s.on_channel_settled settle_event).1 = s := by
  constructor
  · rw [on_channel_close_spec]
    have hct : close_tasks s close_event = [] := by
      unfold close_tasks
      rw [h2]
      rfl
    simp [hct, Finset.erase_eq_of_not_mem h1]
  · rw [on_channel_settled_spec]
    have hst : settle_tasks s settle_event = [] := by
      unfold settle_tasks
      rw [h3]
      rfl
    simp [hst, delete_monitor_request_of_none h3]

theorem claim_C2_amended_witness :
    (c2w_state.on_channel_close c2_close_event sample_tx).1 = c2w_state
    ∧ (c2w_state.on_channel_settled c2_settle_event).1 = c2w_state :=
  claim_C2_amended_noop_when_no_requests c2w_state c2_close_event sample_tx c2_settle_event
    (by decide) (by decide) (by decide)

/-- C3: a confirmed settle event spawns one `OnChannelSettle` reward-claim
task per stored monitor request of the channel (unconditionally), and
afterwards the store holds no request for that channel id. -/
theorem claim_C3_settle_claims_and_cleans (s : MonitoringService) (event : SettleEvent) :
    (s.on_channel_settled event).1.task_list = s.task_list ++ settle_tasks s event
    ∧ settle_tasks s event
        = (s.state_db.get_monitor_requests event.args.channel_identifier).map
            (fun e => TaskUnit.onChannelSettle e.2 s.monitor_contract_address s.private_key)
    ∧ (s.on_channel_settled event).1.state_db.get_monitor_requests
        event.args.channel_identifier = [] := by
  refine ⟨?_, rfl, ?_⟩
  · rw [on_channel_settled_spec]
  · rw [on_channel_settled_spec]
    exact get_monitor_requests_delete s.state_db event.args.channel_identifier

/-- C4: delivering a sequence of confirmed events with duplicate deliveries
inserted (each event re-delivered any number of extra times at its position)
yields the same final open-channel set as the deduplicated sequence: adding an
already-open channel and removing an already-removed one are no-ops. -/
theorem claim_C4_duplicate_delivery_idempotent (s : MonitoringService)
    (events : List ConfirmedEvent) (ns : List Nat) :
    (process_confirmed_events s (expand_duplicates events ns)).open_channels
      = (process_confirmed_events s events).open_channels := by
  rw [process_confirmed_events_open_channels (expand_duplicates events ns) s,
    process_confirmed_events_open_channels events s,
    open_fold_expand events ns s.open_channels]

/-- C5: a confirmed close event for a channel with zero dispute-eligible
stored requests (every stored request for the channel is signed for the
closing participant) spawns no task and still removes the channel from the
open set. -/
theorem claim_C5_no_eligible_requests (s : MonitoringService) (event : CloseEvent)
    (tx : Transaction)
    (h : ∀ e ∈ s.state_db.get_monitor_requests event.args.channel_identifier,
        e.1.2 = event.args.closing_participant) :
    (s.on_channel_close event tx).1.task_list = s.task_list
    ∧ (s.on_channel_close event tx).1.open_channels
        = s.open_channels.erase event.args.channel_identifier := by
  have hct : close_tasks s event = [] := by
    unfold close_tasks
    have hfil : (s.state_db.get_monitor_requests event.args.channel_identifier).filter
        (fun e => decide (e.1.2 ≠ event.args.closing_participant)) = [] := by
      refine List.filter_eq_nil_iff.mpr ?_
      intro e he
      simp [h e he]
    rw [hfil]
    rfl
  rw [on_channel_close_spec]
  simp [hct]

theorem claim_C5_witness :
    (c5_state.on_channel_close c5_close_event sample_tx).1.task_list = c5_state.task_list
    ∧ (c5_state.on_channel_close c5_close_event sample_tx).1.open_channels
        = c5_state.open_channels.erase c5_close_event.args.channel_identifier :=
  claim_C5_no_eligible_requests c5_state c5_close_event sample_tx (by decide)

/-- C6: an inbound monitor request for a channel id absent from the open set
spawns no task, leaves the whole service state unchanged and logs the drop at
debug level; for a channel id in the open set it spawns exactly one
`StoreMonitorRequest` task and changes nothing else. -/
theorem claim_C6_monitor_request_gate (s : MonitoringService)
    (monitor_request : MonitorRequest) :
    (monitor_request.balance_proof.channel_identifier ∉ s.open_channels →
      s.on_monitor_request monitor_request
          = (s, [Log.debug_discarding_mr monitor_request.balance_proof.channel_identifier])
      ∧ (Log.debug_discarding_mr monitor_request.balance_proof.channel_identifier).level
          = LogLevel.debug)
    ∧ (monitor_request.balance_proof.channel_identifier ∈ s.open_channels →
      (s.on_monitor_request monitor_request).1.task_list
          = s.task_list ++ [TaskUnit.storeMonitorRequest monitor_request]
      ∧ (s.on_monitor_request monitor_request).1.open_channels = s.open_channels
      ∧ (s.on_monitor_request monitor_request).1.state_db = s.state_db
      ∧ (s.on_monitor_request monitor_request).2 = []) := by
  constructor
  · intro h
    constructor
    · simp [MonitoringService.on_monitor_request, h]
    · rfl
  · intro h
    refine ⟨?_, ?_, ?_, ?_⟩ <;>
      simp [MonitoringService.on_monitor_request, h, MonitoringService.start_task]

theorem claim_C6_witness :
    (c6_state_closed.on_monitor_request c6_mr
        = (c6_state_closed, [Log.debug_discarding_mr c6_mr.balance_proof.channel_identifier])
      ∧ (Log.debug_discarding_mr c6_mr.balance_proof.channel_identifier).level
        = LogLevel.debug)
    ∧ ((c6_state_open.on_monitor_request c6_mr).1.task_list
        = c6_state_open.task_list ++ [TaskUnit.storeMonitorRequest c6_mr]
      ∧ (c6_state_open.on_monitor_request c6_mr).1.open_channels = c6_state_open.open_channels
      ∧ (c6_state_open.on_monitor_request c6_mr).1.state_db = c6_state_open.state_db
      ∧ (c6_state_open.on_monitor_request c6_mr).2 = []) :=
  ⟨(claim_C6_monitor_request_gate c6_state_closed c6_mr).1 (by decide),
   (claim_C6_monitor_request_gate c6_state_open c6_mr).2 (by decide)⟩

/-- C7: construction fails with the storage-mismatch error (with a distinct
inspectable reason) when a persisted identity disagrees with current
configuration on chain id, service address or monitoring-contract address;
it fails with the distinct registration error when the derived service
address is not registered; and an uninitialized store is first initialized
from the current chain id, contract address and derived address, after which
the identity checks pass. -/
theorem claim_C7_startup_validation (cfg_private_key cfg_chain_id : Nat)
    (monitor_contract_address : Address) (registered_services : List Address)
    (db : StateDB) :
    (db.initialized = true → db.chain_id ≠ cfg_chain_id →
      MonitoringService.init cfg_private_key cfg_chain_id monitor_contract_address
          registered_services db
        = Except.error (InitError.stateDBInvalid StateDBInvalidReason.chainId))
    ∧ (db.initialized = true → db.chain_id = cfg_chain_id →
      is_same_address db.server_address (private_key_to_address cfg_private_key) = false →
      MonitoringService.init cfg_private_key cfg_chain_id monitor_contract_address
          registered_services db
        = Except.error (InitError.stateDBInvalid StateDBInvalidReason.serverAddress))
    ∧ (db.initialized = true → db.chain_id = cfg_chain_id →
      is_same_address db.server_address (private_key_to_address cfg_private_key) = true →
      is_same_address db.monitoring_contract_address monitor_contract_address = false →
      MonitoringService.init cfg_private_key cfg_chain_id monitor_contract_address
          registered_services db
        = Except.error (InitError.stateDBInvalid StateDBInvalidReason.monitoringContractAddress))
    ∧ (db.initialized = true → db.chain_id = cfg_chain_id →
      is_same_address db.server_address (private_key_to_address cfg_private_key) = true →
      is_same_address db.monitoring_contract_address monitor_contract_address = true →
      is_service_registered registered_services (private_key_to_address cfg_private_key) = false →
      MonitoringService.init cfg_private_key cfg_chain_id monitor_contract_address
          registered_services db
        = Except.error InitError.serviceNotRegistered)
    ∧ (db.initialized = false →
      is_service_registered registered_services (private_key_to_address cfg_private_key) = false →
      MonitoringService.init cfg_private_key cfg_chain_id monitor_contract_address
          registered_services db
        = Except.error InitError.serviceNotRegistered)
    ∧ (db.initialized = false →
      is_service_registered registered_services (private_key_to_address cfg_private_key) = true →
      ∃ s, MonitoringService.init cfg_private_key cfg_chain_id monitor_contract_address
            registered_services db
          = Except.ok s
        ∧ s.state_db.chain_id = cfg_chain_id
        ∧ s.state_db.server_address = private_key_to_address cfg_private_key
        ∧ s.state_db.monitoring_contract_address = monitor_contract_address) := by
  refine ⟨?_, ?_, ?_, ?_, ?_, ?_⟩
  · intro h1 h2
    simp [MonitoringService.init, StateDB.is_initialized, h1, h2]
  · intro h1 h2 h3
    simp [MonitoringService.init, StateDB.is_initialized, h1, h2, h3]
  · intro h1 h2 h3 h4
    simp [MonitoringService.init, StateDB.is_initialized, h1, h2, h3, h4]
  · intro h1 h2 h3 h4 h5
    simp [MonitoringService.init, StateDB.is_initialized, h1, h2, h3, h4, h5]
  · intro h1 h5
    simp [MonitoringService.init, StateDB.is_initialized, StateDB.setup_db,
      is_same_address, h1, h5]
  · intro h1 h5
    simp [MonitoringService.init, StateDB.is_initialized, StateDB.setup_db,
      is_same_address, h1, h5]

theorem claim_C7_witness :
    MonitoringService.init 11 1 21 [11] c7_db_chain
        = Except.error (InitError.stateDBInvalid StateDBInvalidReason.chainId)
    ∧ MonitoringService.init 11 1 21 [11] c7_db_server
        = Except.error (InitError.stateDBInvalid StateDBInvalidReason.serverAddress)
    ∧ MonitoringService.init 11 1 21 [11] c7_db_contract
        = Except.error (InitError.stateDBInvalid StateDBInvalidReason.monitoringContractAddress)
    ∧ MonitoringService.init 11 1 21 [] c7_db_good
        = Except.error InitError.serviceNotRegistered
    ∧ MonitoringService.init 11 1 21 [] c7_db_uninit
        = Except.error InitError.serviceNotRegistered
    ∧ ∃ s, MonitoringService.init 11 1 21 [11] c7_db_uninit = Except.ok s
        ∧ s.state_db.chain_id = 1
        ∧ s.state_db.server_address = private_key_to_address 11
        ∧ s.state_db.monitoring_contract_address = 21 :=
  ⟨(claim_C7_startup_validation 11 1 21 [11] c7_db_chain).1 (by decide) (by decide),
   (claim_C7_startup_validation 11 1 21 [11] c7_db_server).2.1 (by decide) (by decide) (by decide),
   (claim_C7_startup_validation 11 1 21 [11] c7_db_contract).2.2.1 (by decide) (by decide)
     (by decide) (by decide),
   (claim_C7_startup_validation 11 1 21 [] c7_db_good).2.2.2.1 (by decide) (by decide)
     (by decide) (by decide) (by decide),
   (claim_C7_startup_validation 11 1 21 [] c7_db_uninit).2.2.2.2.1 (by decide) (by decide),
   (claim_C7_startup_validation 11 1 21 [11] c7_db_uninit).2.2.2.2.2 (by decide) (by decide)⟩

/-- C8: `stop()` sets the stop flag checked by the scheduling loop and stops
the blockchain event monitor, while leaving the tracked in-flight task list
unchanged. -/
theorem claim_C8_stop_frame (s : MonitoringService) :
    (MonitoringService.stop s).stop_event = true
    ∧ MonitoringService.loop_continues (MonitoringService.stop s) = false
    ∧ (MonitoringService.stop s).blockchain_running = false
    ∧ (MonitoringService.stop s).task_list = s.task_list := by
  simp [MonitoringService.stop, MonitoringService.loop_continues]

/-- C9: a confirmed settle event leaves the open-channel set unchanged, so a
channel settled without a previously observed close stays in the open set and
`on_monitor_request` still accepts (stores) new requests for it. -/
theorem claim_C9_settle_preserves_open_set (s : MonitoringService)
    (event : SettleEvent) (monitor_request : MonitorRequest) :
    (s.on_channel_settled event).1.open_channels = s.open_channels
    ∧ (monitor_request.balance_proof.channel_identifier ∈ s.open_channels →
      ((s.on_channel_settled event).1.on_monitor_request monitor_request).1.task_list
        = (s.on_channel_settled event).1.task_list
            ++ [TaskUnit.storeMonitorRequest monitor_request]) := by
  have hopen : (s.on_channel_settled event).1.open_channels = s.open_channels := by
    rw [on_channel_settled_spec]
  refine ⟨hopen, ?_⟩
  intro h
  have h2 : monitor_request.balance_proof.channel_identifier
      ∈ (s.on_channel_settled event).1.open_channels := by
    rw [hopen]; exact h
  simp [MonitoringService.on_monitor_request, h2, MonitoringService.start_task]

theorem claim_C9_witness :
    (c9_state.on_channel_settled c9_settle_event).1.open_channels = c9_state.open_channels
    ∧ ((c9_state.on_channel_settled c9_settle_event).1.on_monitor_request c9_mr).1.task_list
        = (c9_state.on_channel_settled c9_settle_event).1.task_list
            ++ [TaskUnit.storeMonitorRequest c9_mr] :=
  ⟨(claim_C9_settle_preserves_open_set c9_state c9_settle_event c9_mr).1,
   (claim_C9_settle_preserves_open_set c9_state c9_settle_event c9_mr).2 (by decide)⟩

/-- C10: dispute-task spawning is not idempotent under duplicate delivery:
delivering the same confirmed close event `n` times appends `n` copies of the
per-delivery dispute-task batch to the task list, while the open-channel set
after any positive number of deliveries equals the set after one. -/
theorem claim_C10_close_not_idempotent (event : CloseEvent) (tx : Transaction) :
    ∀ (n : Nat) (s : MonitoringService),
      (iterate_on_channel_close event tx n s).task_list
          = s.task_list ++ (List.replicate n (close_tasks s event)).flatten
        ∧ (iterate_on_channel_close event tx n s).open_channels
          = (if n = 0 then s.open_channels
             else s.open_channels.erase event.args.channel_identifier) := by
  intro n
  induction n with
  | zero => intro s; simp [iterate_on_channel_close]
  | succ n ih =>
    intro s
    have hclose : (s.on_channel_close event tx).1
        = { s with
            task_list := s.task_list ++ close_tasks s event
            open_channels := s.open_channels.erase event.args.channel_identifier } := by
      rw [on_channel_close_spec]
    obtain ⟨h1, h2⟩ := ih (s.on_channel_close event tx).1
    rw [hclose] at h1 h2
    have hstep : iterate_on_channel_close event tx (n + 1) s
        = iterate_on_channel_close event tx n (s.on_channel_close event tx).1 := rfl
    rw [hstep, hclose]
    constructor
    · rw [h1]
      have hct : close_tasks
          { s with
              task_list := s.task_list ++ close_tasks s event
              open_channels := s.open_channels.erase event.args.channel_identifier } event
          = close_tasks s event := rfl
      rw [hct, List.replicate_succ, List.flatten_cons]
      simp [List.append_assoc]
    · rw [h2]
      by_cases hn : n = 0 <;> simp [hn, Finset.erase_idem]

end Monitoring
